import Mathlib

/-!
Shallow embedding of the state-management core of `src/bundle.js`
(a Redux-style todo application): the `todo`, `todos` and
`visibilityFilter` reducers, the combined root reducer, the action
creators (`addTodo` with its module-level `nextTodoId` counter,
`toggleTodo`, `setVisibilityFilter`) and the `getVisibleTodos`
selector, together with proofs of the specified properties.

Modelling conventions:
- JS `undefined` prior state is `Option.none`; a JS default parameter
  (`state = []`, `state = 'SHOW_ALL'`) is `Option.getD` at entry.
- A JS runtime exception (e.g. the `TypeError` raised when reading
  `state.id` while `state` is `undefined`) is `Except.error`.
- Reference identity of an unchanged value is rendered as the branch
  returning its input verbatim, hence value equality in the embedding.
-/

namespace TodoAppSpec

/-- A todo item: `{ id, text, completed }` as built by the `todo`
leaf reducer in `src/bundle.js`. -/
structure Todo where
  id : Nat
  text : String
  completed : Bool
deriving Repr, DecidableEq

/-- A JS runtime error.  The only one this core can raise is the
`TypeError` from reading a property of `undefined`. -/
inductive JsError where
  | typeError
deriving Repr, DecidableEq

/-- The action vocabulary of `src/bundle.js`.  `addAction id text` is
`{type:'ADD_TODO', id, text}`, `toggleAction id` is
`{type:'TOGGLE_TODO', id}`, `setFilterAction f` is
`{type:'SET_VISIBILITY_FILTER', filter:f}`, and `unknown ty` is any
action record whose `type` string `ty` is none of the three above. -/
inductive Action where
  | addAction (id : Nat) (text : String)
  | toggleAction (id : Nat)
  | setFilterAction (filter : String)
  | unknown (type : String)
deriving Repr, DecidableEq

/-- The id carried by an `ADD_TODO` action, if the action is one. -/
def Action.addId : Action → Option Nat
  | .addAction i _ => some i
  | _ => none

/-- The `todo` leaf reducer (src/bundle.js lines 14-34).
`ADD_TODO` returns the fresh record `{id, text, completed:false}`
ignoring the prior state; `TOGGLE_TODO` reads `state.id` — a
`TypeError` when the prior state is `undefined` — and returns the
prior state untouched on a mismatch, otherwise a copy with
`completed` negated; any other type returns the prior state. -/
def todo (state : Option Todo) (action : Action) : Except JsError (Option Todo) :=
  match action with
  | .addAction i t =>
      .ok (some { id := i, text := t, completed := false })
  | .toggleAction i =>
      match state with
      | none => .error .typeError
      | some s =>
          if s.id ≠ i then
            .ok (some s)
          else
            .ok (some { s with completed := !s.completed })
  | _ => .ok state

/-- JS `Array.prototype.map` with a callback that may throw: applies
the callback to each element in order, propagating the first error. -/
def mapE (f : Todo → Except JsError (Option Todo)) : List Todo → Except JsError (List (Option Todo))
  | [] => .ok []
  | t :: ts => f t >>= fun r => (mapE f ts).map (fun rs => r :: rs)

/-- The `todos` reducer (src/bundle.js lines 43-60), prior state
defaulting to `[]`.  `ADD_TODO` appends `todo(undefined, action)`;
`TOGGLE_TODO` maps the `todo` leaf reducer over every element;
any other type returns the prior list. -/
def todos (stateOpt : Option (List Todo)) (action : Action) : Except JsError (List Todo) :=
  let state := stateOpt.getD []
  match action with
  | .addAction i t =>
      (todo none (.addAction i t)).map (fun newTodo => state ++ newTodo.toList)
  | .toggleAction i =>
      (mapE (fun t => todo (some t) (.toggleAction i)) state).map
        (fun results => results.filterMap id)
  | _ => .ok state

/-- The `visibilityFilter` reducer (src/bundle.js lines 69-76), prior
state defaulting to `'SHOW_ALL'`.  `SET_VISIBILITY_FILTER` returns
`action.filter` verbatim; any other type returns the prior filter. -/
def visibilityFilter (stateOpt : Option String) (action : Action) : String :=
  let state := stateOpt.getD "SHOW_ALL"
  match action with
  | .setFilterAction f => f
  | _ => state

/-- The whole application state `{ todos, visibilityFilter }`. -/
structure AppState where
  todos : List Todo
  visibilityFilter : String
deriving Repr, DecidableEq

/-- The root reducer `todoApp = combineReducers({todos, visibilityFilter})`
(src/bundle.js lines 86-89): each slice reducer receives its own prior
slice (`undefined` when the whole prior state is absent) and the new
state maps each key to that reducer's result. -/
def todoApp (state : Option AppState) (action : Action) : Except JsError AppState :=
  (todos (state.map AppState.todos) action).map (fun ts =>
    { todos := ts
      visibilityFilter := visibilityFilter (state.map AppState.visibilityFilter) action })

/-- The `addTodo` action creator (src/bundle.js lines 97-104).  The
module-level mutable counter `nextTodoId` (initially `0`) is threaded
explicitly: the call returns the action `{type:'ADD_TODO',
id:nextTodoId, text}` together with the incremented counter. -/
def addTodo (text : String) (nextTodoId : Nat) : Action × Nat :=
  (.addAction nextTodoId text, nextTodoId + 1)

/-- The `toggleTodo` action creator (src/bundle.js lines 112-117). -/
def toggleTodo (id : Nat) : Action :=
  .toggleAction id

/-- The `setVisibilityFilter` action creator (src/bundle.js lines 125-130). -/
def setVisibilityFilter (filter : String) : Action :=
  .setFilterAction filter

/-- A sequence of consecutive `addTodo` calls starting from counter
value `n`: returns the produced actions in call order together with
the final counter value. -/
def addTodoSeq (texts : List String) (n : Nat) : List Action × Nat :=
  match texts with
  | [] => ([], n)
  | t :: ts =>
      let (a, n1) := addTodo t n
      let (rest, n2) := addTodoSeq ts n1
      (a :: rest, n2)

/-- Folding a list of actions through the `todos` reducer from a
present prior list, propagating any error. -/
def todosFold (state : List Todo) : List Action → Except JsError (List Todo)
  | [] => .ok state
  | a :: as => todos (some state) a >>= fun state2 => todosFold state2 as

/-- Folding a list of actions through the root reducer from a present
prior state, propagating any error. -/
def dispatchAll (state : AppState) : List Action → Except JsError AppState
  | [] => .ok state
  | a :: as => todoApp (some state) a >>= fun state2 => dispatchAll state2 as

/-- The `getVisibleTodos` selector (src/bundle.js lines 224-240): a
switch on the filter string with no default branch, so an
unrecognized filter falls through and the function returns
`undefined` (`none`). -/
def getVisibleTodos (todos : List Todo) (filter : String) : Option (List Todo) :=
  if filter = "SHOW_ALL" then
    some todos
  else if filter = "SHOW_COMPLETED" then
    some (todos.filter (fun t => t.completed))
  else if filter = "SHOW_ACTIVE" then
    some (todos.filter (fun t => !t.completed))
  else
    none

/-- The fresh todos created by `n`-onwards consecutive `ADD_TODO`
dispatches carrying the given texts (specification helper). -/
def mkTodos (texts : List String) (n : Nat) : List Todo :=
  match texts with
  | [] => []
  | t :: ts => { id := n, text := t, completed := false } :: mkTodos ts (n + 1)

/-- What the `todo` leaf reducer does to one present element under
`TOGGLE_TODO{id:k}` (specification helper mirroring its two branches). -/
def toggleOne (k : Nat) (t : Todo) : Todo :=
  if t.id ≠ k then t else { t with completed := !t.completed }

lemma todo_some_toggle (t : Todo) (k : Nat) :
    todo (some t) (.toggleAction k) = .ok (some (toggleOne k t)) := by
  by_cases h : t.id = k
  · simp [todo, toggleOne, h]
  · simp [todo, toggleOne, h]

lemma mapE_ok (g : Todo → Todo) (f : Todo → Except JsError (Option Todo))
    (hf : ∀ t, f t = .ok (some (g t))) (ts : List Todo) :
    mapE f ts = .ok (ts.map (fun t => some (g t))) := by
  induction ts with
  | nil => rfl
  | cons t ts ih =>
      simp only [mapE]
      rw [hf t, ih]
      rfl

lemma filterMap_some_eq_map {α β : Type} (g : α → β) (ts : List α) :
    ts.filterMap (fun t => some (g t)) = ts.map g := by
  induction ts with
  | nil => rfl
  | cons t ts ih => simp [ih]

lemma todos_toggle (st : List Todo) (k : Nat) :
    todos (some st) (.toggleAction k) = .ok (st.map (toggleOne k)) := by
  have h1 := mapE_ok (toggleOne k) (fun t => todo (some t) (.toggleAction k))
    (fun t => todo_some_toggle t k) st
  simp [todos, h1, Except.map, filterMap_some_eq_map]

lemma todos_add (stOpt : Option (List Todo)) (i : Nat) (t : String) :
    todos stOpt (.addAction i t) =
      .ok (stOpt.getD [] ++ [{ id := i, text := t, completed := false }]) := rfl

lemma addTodoSeq_fst (texts : List String) (n : Nat) :
    (addTodoSeq texts n).1 =
      (mkTodos texts n).map (fun td => Action.addAction td.id td.text) := by
  induction texts generalizing n with
  | nil => rfl
  | cons t ts ih => simp [addTodoSeq, addTodo, mkTodos, ih]

lemma mkTodos_map_id (texts : List String) (n : Nat) :
    (mkTodos texts n).map Todo.id = List.range' n texts.length := by
  induction texts generalizing n with
  | nil => rfl
  | cons t ts ih => simp [mkTodos, ih, List.range'_succ]

lemma todosFold_addSeq (texts : List String) (n : Nat) (st : List Todo) :
    todosFold st (addTodoSeq texts n).1 = .ok (st ++ mkTodos texts n) := by
  induction texts generalizing n st with
  | nil => simp [addTodoSeq, todosFold, mkTodos]
  | cons t ts ih =>
      simp only [addTodoSeq, addTodo, todosFold, mkTodos]
      rw [todos_add]
      simp only [Option.getD_some]
      rw [show ((Except.ok (ε := JsError)
            (st ++ [{ id := n, text := t, completed := false }])) >>=
          fun state2 => todosFold state2 (addTodoSeq ts (n + 1)).1) =
          todosFold (st ++ [{ id := n, text := t, completed := false }])
            (addTodoSeq ts (n + 1)).1 from rfl]
      rw [ih]
      simp

/-- C1: for every prior todo list and every `ADD_TODO{id, text}` action,
the `todos` reducer returns the prior sequence with exactly the record
`{id, text, completed:false}` appended, and the `todo` leaf reducer
builds that record ignoring any prior todo. -/
theorem add_todo_appends (prior : List Todo) (priorOne : Option Todo)
    (i : Nat) (t : String) :
    todos (some prior) (.addAction i t) =
      .ok (prior ++ [{ id := i, text := t, completed := false }]) ∧
    todo priorOne (.addAction i t) =
      .ok (some { id := i, text := t, completed := false }) :=
  ⟨rfl, rfl⟩

/-- C2: under `TOGGLE_TODO{id:k}` the `todos` reducer returns a list of
the same length in which, position by position, a todo whose id differs
from `k` is returned unchanged (the branch hands back its input, i.e.
the same reference) and a todo whose id equals `k` becomes a copy with
only `completed` negated (id and text unchanged). -/
theorem toggle_todo_frame (st : List Todo) (k : Nat) :
    ∃ st2, todos (some st) (.toggleAction k) = .ok st2 ∧
      st2.length = st.length ∧
      ∀ (i : Nat) (old : Todo), st[i]? = some old →
        st2[i]? = some (if old.id ≠ k then old
                        else { old with completed := !old.completed }) := by
  refine ⟨st.map (toggleOne k), todos_toggle st k, by simp, ?_⟩
  intro i old hold
  rw [List.getElem?_map, hold]
  rfl

/-- C2 witness at a concrete list and id. -/
theorem toggle_todo_frame_witness :
    ∃ st2, todos (some [{ id := 0, text := "a", completed := false },
                        { id := 1, text := "b", completed := true }])
        (.toggleAction 1) = .ok st2 ∧
      st2.length = ([{ id := 0, text := "a", completed := false },
                     { id := 1, text := "b", completed := true }] : List Todo).length ∧
      ∀ (i : Nat) (old : Todo),
        ([{ id := 0, text := "a", completed := false },
          { id := 1, text := "b", completed := true }] : List Todo)[i]? = some old →
        st2[i]? = some (if old.id ≠ 1 then old
                        else { old with completed := !old.completed }) :=
  toggle_todo_frame
    [{ id := 0, text := "a", completed := false },
     { id := 1, text := "b", completed := true }] 1

/-- C3: the `visibilityFilter` reducer defaults an absent prior filter
to `'SHOW_ALL'`; `SET_VISIBILITY_FILTER` returns the action's filter
string verbatim, whatever string it is (no validation); every other
action returns the prior filter unchanged. -/
theorem visibilityFilter_contract :
    (∀ a : Action, (∀ f, a ≠ Action.setFilterAction f) →
        visibilityFilter none a = "SHOW_ALL") ∧
    (∀ (s : Option String) (f : String),
        visibilityFilter s (.setFilterAction f) = f) ∧
    (∀ (s : String) (a : Action), (∀ f, a ≠ Action.setFilterAction f) →
        visibilityFilter (some s) a = s) := by
  refine ⟨?_, fun s f => rfl, ?_⟩
  · intro a h
    cases a with
    | addAction i t => rfl
    | toggleAction i => rfl
    | setFilterAction f => exact absurd rfl (h f)
    | unknown ty => rfl
  · intro s a h
    cases a with
    | addAction i t => rfl
    | toggleAction i => rfl
    | setFilterAction f => exact absurd rfl (h f)
    | unknown ty => rfl

/-- C3 witness at concrete filters and actions, including an
unrecognized filter string accepted verbatim. -/
theorem visibilityFilter_contract_witness :
    visibilityFilter none (.unknown "INIT") = "SHOW_ALL" ∧
    visibilityFilter (some "SHOW_ALL") (.setFilterAction "BOGUS") = "BOGUS" ∧
    visibilityFilter (some "SHOW_ACTIVE") (.addAction 0 "x") = "SHOW_ACTIVE" :=
  ⟨visibilityFilter_contract.1 _ (fun f h => Action.noConfusion h),
   visibilityFilter_contract.2.1 _ _,
   visibilityFilter_contract.2.2 _ _ (fun f h => Action.noConfusion h)⟩

/-- C4: `getVisibleTodos` passes the list through for `'SHOW_ALL'`,
keeps exactly the completed todos (in order) for `'SHOW_COMPLETED'`,
and exactly the non-completed ones (in order) for `'SHOW_ACTIVE'`. -/
theorem getVisibleTodos_contract (ts : List Todo) :
    getVisibleTodos ts "SHOW_ALL" = some ts ∧
    getVisibleTodos ts "SHOW_COMPLETED" =
      some (ts.filter (fun t => t.completed)) ∧
    getVisibleTodos ts "SHOW_ACTIVE" =
      some (ts.filter (fun t => !t.completed)) :=
  ⟨rfl, rfl, rfl⟩

/-- C5: folding `addTodo('buy milk')`, `toggleTodo(0)`,
`addTodo('walk dog')`, `setVisibilityFilter('SHOW_COMPLETED')` from the
initial state (counter starting at 0) and then selecting the visible
todos yields exactly `[{id:0, text:'buy milk', completed:true}]`. -/
theorem scenario_fold_visible :
    dispatchAll { todos := [], visibilityFilter := "SHOW_ALL" }
      [(addTodo "buy milk" 0).1, toggleTodo 0,
       (addTodo "walk dog" (addTodo "buy milk" 0).2).1,
       setVisibilityFilter "SHOW_COMPLETED"] =
      .ok { todos := [{ id := 0, text := "buy milk", completed := true },
                      { id := 1, text := "walk dog", completed := false }],
            visibilityFilter := "SHOW_COMPLETED" } ∧
    getVisibleTodos
      [{ id := 0, text := "buy milk", completed := true },
       { id := 1, text := "walk dog", completed := false }] "SHOW_COMPLETED" =
      some [{ id := 0, text := "buy milk", completed := true }] :=
  ⟨rfl, rfl⟩

/-- C6: an action whose type is none of the three recognized ones is a
no-op for every leaf reducer (same slice handed back) and hence for the
root reducer: the resulting whole state equals the prior one. -/
theorem unknown_action_noop (ty : String) (t : Todo) (st : List Todo)
    (f : String) (app : AppState) :
    todo (some t) (.unknown ty) = .ok (some t) ∧
    todos (some st) (.unknown ty) = .ok st ∧
    visibilityFilter (some f) (.unknown ty) = f ∧
    todoApp (some app) (.unknown ty) = .ok app :=
  ⟨rfl, rfl, rfl, rfl⟩

/-- C7 counterexample: calling the `todo` leaf reducer with an absent
(`undefined`) prior todo and a `TOGGLE_TODO` action throws (reading
`state.id` of `undefined` is a TypeError), so the reducer is not total
over every prior state and action as claimed. -/
theorem todo_toggle_undefined_throws :
    todo none (.toggleAction 0) = .error .typeError := rfl

/-- C7 amended: the `todo` leaf reducer returns a value without error
for every present prior todo and every action, and for an absent prior
todo with any non-`TOGGLE_TODO` action; only the absent-prior
`TOGGLE_TODO` combination (which the `todos` reducer never produces,
since it passes an absent prior only for `ADD_TODO`) throws. -/
theorem todo_total_amended (st : Option Todo) (a : Action)
    (h : st = none → ∀ k, a ≠ Action.toggleAction k) :
    ∃ r, todo st a = .ok r := by
  cases a with
  | addAction i t => exact ⟨_, rfl⟩
  | toggleAction k =>
      cases st with
      | none => exact absurd rfl (h rfl k)
      | some s => exact ⟨_, todo_some_toggle s k⟩
  | setFilterAction f => exact ⟨_, rfl⟩
  | unknown ty => exact ⟨_, rfl⟩

/-- C7 amended, witness at a concrete present todo and toggle action. -/
theorem todo_total_amended_witness :
    ∃ r, todo (some { id := 0, text := "x", completed := false })
        (.toggleAction 0) = .ok r :=
  todo_total_amended _ _ (fun h => Option.noConfusion h)

/-- C8: with the `nextTodoId` counter threaded from 0, the n-th
`addTodo` call (counting from 1) produces an `ADD_TODO` action with id
n-1, so the ids of any call sequence are `0, 1, ...` — pairwise
distinct and strictly increasing — and folding those actions through
the `todos` reducer yields a state whose todo ids are exactly
`0 .. n-1`, unique and never reused. -/
theorem addTodo_ids_monotone_unique (texts : List String) :
    (addTodoSeq texts 0).1.filterMap Action.addId = List.range texts.length ∧
    ((addTodoSeq texts 0).1.filterMap Action.addId).Pairwise (· < ·) ∧
    ∃ ts, todosFold [] (addTodoSeq texts 0).1 = .ok ts ∧
      ts.map Todo.id = List.range texts.length ∧
      (ts.map Todo.id).Nodup := by
  have hids : (addTodoSeq texts 0).1.filterMap Action.addId =
      List.range texts.length := by
    rw [addTodoSeq_fst, List.filterMap_map]
    show List.filterMap (fun td : Todo => some td.id) (mkTodos texts 0) = _
    rw [filterMap_some_eq_map, mkTodos_map_id, List.range_eq_range']
  refine ⟨hids, ?_, ?_⟩
  · rw [hids]
    exact List.pairwise_lt_range _
  · refine ⟨mkTodos texts 0, ?_, ?_, ?_⟩
    · simpa using todosFold_addSeq texts 0 []
    · rw [mkTodos_map_id, List.range_eq_range']
    · rw [mkTodos_map_id, ← List.range_eq_range']
      exact List.nodup_range _

/-- C9: toggling the same id twice in a row restores the original list
up to value equality (same ids, texts and completed flags, same
order), for every list whose ids are unique. -/
theorem toggle_involution (st : List Todo) (k : Nat)
    (h : (st.map Todo.id).Nodup) :
    (todos (some st) (.toggleAction k) >>= fun st2 =>
        todos (some st2) (.toggleAction k)) = .ok st := by
  rw [todos_toggle]
  show todos (some (st.map (toggleOne k))) (.toggleAction k) = .ok st
  rw [todos_toggle, List.map_map]
  have hpt : ∀ t, toggleOne k (toggleOne k t) = t := by
    intro t
    by_cases ht : t.id = k
    · subst ht
      simp [toggleOne]
    · simp [toggleOne, ht]
  have hmap : ∀ l : List Todo, l.map (toggleOne k ∘ toggleOne k) = l := by
    intro l
    induction l with
    | nil => rfl
    | cons t ts ih => simp [Function.comp, hpt t, ih]
  rw [hmap]

/-- C9 witness at a concrete two-element list with distinct ids. -/
theorem toggle_involution_witness :
    (todos (some [{ id := 0, text := "a", completed := false },
                  { id := 1, text := "b", completed := true }])
        (.toggleAction 0) >>= fun st2 =>
        todos (some st2) (.toggleAction 0)) =
      .ok [{ id := 0, text := "a", completed := false },
           { id := 1, text := "b", completed := true }] :=
  toggle_involution _ 0 (by decide)

/-- C10: for a filter string outside the three recognized values the
selector's switch falls through (no default branch) and
`getVisibleTodos` returns `undefined` (`none`) rather than raising an
error or behaving like `SHOW_ALL`. -/
theorem getVisibleTodos_unrecognized_none (ts : List Todo) (f : String)
    (h1 : f ≠ "SHOW_ALL") (h2 : f ≠ "SHOW_COMPLETED")
    (h3 : f ≠ "SHOW_ACTIVE") :
    getVisibleTodos ts f = none := by
  simp [getVisibleTodos, h1, h2, h3]

/-- C10 witness at a concrete unrecognized filter string. -/
theorem getVisibleTodos_unrecognized_none_witness :
    getVisibleTodos [{ id := 0, text := "a", completed := false }]
      "SHOW_NONE" = none :=
  getVisibleTodos_unrecognized_none _ _ (by decide) (by decide) (by decide)

end TodoAppSpec
